import Mathlib

/-!
# Verification of the image-refac converter core

Shallow embedding of the repository's core logic:

* `src/converter/image_converter.py` — the aspect-ratio resize calculation
  (`calculate_aspect_ratio_resize`), the per-file conversion
  (`ImageConverter.convert_single`), the best-of-two WebP strategy
  selector (`ImageConverter._try_both_webp`) and the batch executor
  (`ImageConverter.convert_batch`);
* `src/webapp/utils.py` — session directory allocation
  (`session_upload_dir`, `session_conversion_dir`) and the stale-session
  sweep (`cleanup_old_sessions`);
* `src/webapp/routes.py` — the filename sanitisation done by `upload`.

Filesystem and codec effects are modelled by an explicit environment
(`Env`) describing, per conversion task, what each external operation
would do (file sizes, decode results, encode successes/failures), and by
an explicit filesystem state (`FS`) for the task's output and temporary
paths.  Python floats are modelled as exact rationals; Python `int()`
truncation toward zero is `pytrunc`.  Byte sizes are kept in raw bytes
(the Python code divides by 1024 and rounds to two decimals purely for
display; no claim depends on that formatting).  The thread pool of
`convert_batch` is modelled by its sequential linearisation: outcomes
are appended one per task, and an exception raised by a task body
propagates out of the batch call (as `Except.error`), which is exactly
the observable contract the claims speak about (result-list length,
per-task isolation).
-/

/-- Python `int()` applied to a rational: truncation toward zero. -/
def pytrunc (q : ℚ) : ℤ :=
  if q < 0 then ⌈q⌉ else ⌊q⌋

/-- Embedding of `calculate_aspect_ratio_resize` (image_converter.py,
lines 26–41).  `orig_aspect = w/h` and `target_aspect = W/H` are the
floating-point ratios, modelled as exact rationals; `int(...)` is
`pytrunc`. -/
def calculate_aspect_ratio_resize (original_size target_size : ℤ × ℤ) : ℤ × ℤ :=
  let orig_aspect : ℚ := (original_size.1 : ℚ) / (original_size.2 : ℚ)
  let target_aspect : ℚ := (target_size.1 : ℚ) / (target_size.2 : ℚ)
  if target_aspect < orig_aspect then
    (target_size.1, pytrunc ((target_size.1 : ℚ) / orig_aspect))
  else
    (pytrunc ((target_size.2 : ℚ) * orig_aspect), target_size.2)

/-! ## Converter data model (image_converter.py) -/

/-- Configuration of an `ImageConverter` instance (constructor, lines
47–55).  `max_workers` only sizes the thread pool and plays no role in
any observable result, so it is not carried. -/
structure Converter where
  output_format : String
  method : String
  quality : Nat
  resize : Bool
  target_size : ℤ × ℤ
deriving Repr, DecidableEq

/-- Decoded image as seen by the conversion body: dimensions
(`img.size`) and Pillow mode string (`img.mode`). -/
structure ImgState where
  width : ℤ
  height : ℤ
  mode : String
deriving Repr, DecidableEq

/-- State of the two filesystem locations a single conversion touches:
the final output path and the temporary path `_temp_<name>` used by the
auto-WebP selector.  `none` means no file is present; `some n` means a
fully written file of `n` bytes is present. -/
structure FS where
  output : Option Nat
  temp : Option Nat
deriving Repr, DecidableEq

/-- Environment for one conversion task: what each external operation
(filesystem, Pillow codec) would do if invoked.  `none` anywhere means
the corresponding Python call raises an exception.

* `mkdirFails` — `output_path.parent.mkdir(parents=True, exist_ok=True)`
  raises (e.g. a regular file occupies the parent path);
* `inputSize` — result of `os.path.getsize(input_path)`
  (`none` = missing input file);
* `decoded` — result of `Image.open(input_path)` (`none` = decode
  failure);
* `resizeFails` — `img.resize(...)` raises;
* `fixedSave` — byte size written by the single fixed-strategy
  `processed.save(output_path, ...)` (`none` = encoder raised);
* `losslessResult`, `lossyResult` — byte size produced by
  `img.save(temp_path, 'WEBP', **settings)` for the two candidate
  strategies of `_try_both_webp` (`none` = that candidate raised);
* `fs0` — contents of the output/temp paths before the conversion. -/
structure Env where
  mkdirFails : Bool
  inputSize : Option Nat
  decoded : Option ImgState
  resizeFails : Bool
  fixedSave : Option Nat
  losslessResult : Option Nat
  lossyResult : Option Nat
  fs0 : FS
deriving Repr, DecidableEq

/-- Result dictionary of `convert_single` (lines 117–128).  Byte sizes
are kept raw (the Python code stores `size/1024` rounded to two
decimals, a display-only transformation), and the derived
`reduction_pct` display field is elided. -/
structure Outcome where
  input_path : String
  output_path : String
  originalSize : Nat
  convertedSize : Nat
  originalDimensions : ℤ × ℤ
  finalDimensions : ℤ × ℤ
  method_used : String
  success : Bool
  error : Option String
deriving Repr, DecidableEq

/-- Exception escaping `convert_single` itself.  The only statement
executed outside the `try` block is the `mkdir` of the output parent
(line 115), so this is the only way `convert_single` can raise. -/
inductive ConvErr where
  | mkdirFailed
deriving Repr, DecidableEq

/-- Mode normalisation performed by `convert_single` before encoding
(lines 137–141): JPEG targets convert `RGBA`/`P`/`LA` sources to `RGB`;
a `P` (palette) source headed to WebP becomes `RGBA`; every other
format/mode combination is left untouched. -/
def normalizeMode (fmt mode : String) : String :=
  if (fmt = "jpeg" ∨ fmt = "jpg") ∧ (mode = "RGBA" ∨ mode = "P" ∨ mode = "LA") then
    "RGB"
  else if mode = "P" ∧ fmt = "webp" then
    "RGBA"
  else
    mode

/-! ## The auto-WebP strategy selector (`_try_both_webp`, lines 174–203) -/

/-- Loop state of `_try_both_webp`: the filesystem, `best_size`
(`none` models the initial `float('inf')`) and `best_method`
(initialised to `'lossy'`, line 184). -/
structure BestState where
  fs : FS
  bestSize : Option Nat
  bestMethod : String
deriving Repr, DecidableEq

/-- Comparison `size < best_size` where `best_size` may still be the
initial infinity. -/
def ltBest (sz : Nat) (best : Option Nat) : Bool :=
  match best with
  | none => true
  | some b => sz < b

/-- One iteration of the `for method_name, settings in methods.items()`
loop (lines 187–201).  `res` is what `img.save(temp_path, ...)` does for
this candidate.  On an exception the partial temp file, if any, is
unlinked; on success the candidate sits at the temp path, and if its
size beats `best_size` the previous output file is unlinked and the temp
file renamed over the output path, otherwise the temp file is
unlinked. -/
def webpStep (res : Option Nat) (name : String) (st : BestState) : BestState :=
  match res with
  | none =>
      { st with fs := { st.fs with temp := none } }
  | some sz =>
      if ltBest sz st.bestSize then
        { fs := { output := some sz, temp := none },
          bestSize := some sz, bestMethod := name }
      else
        { st with fs := { st.fs with temp := none } }

/-- Embedding of `_try_both_webp`: the candidate dict iterates
`'lossless'` first, then `'lossy'` (Python dict literals preserve
insertion order).  Returns the reported `best_method` and the final
filesystem state. -/
def try_both_webp (env : Env) (fs0 : FS) : String × FS :=
  let st0 : BestState := ⟨fs0, none, "lossy"⟩
  let st1 := webpStep env.losslessResult "lossless" st0
  let st2 := webpStep env.lossyResult "lossy" st1
  (st2.bestMethod, st2.fs)

/-! ## Single-file conversion (`convert_single`, lines 95–172) -/

/-- Final part of the `try` block: `os.path.getsize(output_path)`
(line 161) and the success flag.  If nothing is at the output path the
`getsize` raises, the exception is caught, and the partially filled
result is returned with `success=False`. -/
def finishOutcome (r : Outcome) (fs : FS) : Outcome × FS :=
  match fs.output with
  | none => ({ r with error := some "output file not found" }, fs)
  | some csz => ({ r with convertedSize := csz, success := true }, fs)

/-- Encoding step of `convert_single` (lines 151–159): the auto-WebP
selector when `output_format == 'webp' and method == 'auto'`, otherwise
a single direct `processed.save(output_path, ...)` whose failure is an
exception caught by the surrounding handler. -/
def encodeStep (c : Converter) (env : Env) (r : Outcome) : Outcome × FS :=
  if c.output_format = "webp" ∧ c.method = "auto" then
    let bmfs := try_both_webp env env.fs0
    finishOutcome { r with method_used := bmfs.1 } bmfs.2
  else
    match env.fixedSave with
    | none => ({ r with error := some "encoder error" }, env.fs0)
    | some sz => finishOutcome { r with method_used := c.method }
        { env.fs0 with output := some sz }

/-- Body of the `try` block of `convert_single` (lines 130–167)
together with the surrounding `except` (lines 169–170): every exception
raised inside is converted into the partially filled result with
`error` set and `success` still `False`. -/
def convertTry (c : Converter) (env : Env) (r0 : Outcome) : Outcome × FS :=
  match env.inputSize with
  | none => ({ r0 with error := some "input file not found" }, env.fs0)
  | some isz =>
    let r1 := { r0 with originalSize := isz }
    match env.decoded with
    | none => ({ r1 with error := some "cannot identify image file" }, env.fs0)
    | some img =>
      let r2 := { r1 with originalDimensions := (img.width, img.height) }
      if c.resize then
        if env.resizeFails then
          ({ r2 with error := some "resize error" }, env.fs0)
        else
          let dims := calculate_aspect_ratio_resize (img.width, img.height) c.target_size
          encodeStep c env { r2 with finalDimensions := dims }
      else
        encodeStep c env { r2 with finalDimensions := (img.width, img.height) }

/-- Embedding of `convert_single`.  The `mkdir` of the output parent
(line 115) runs before the `try` block: if it raises, the exception
escapes to the caller (`Except.error`).  Everything afterwards is inside
the `try` and always yields a result dictionary.  The final filesystem
state of the output/temp paths is returned alongside. -/
def convert_single (c : Converter) (env : Env) (input output : String) :
    Except ConvErr (Outcome × FS) :=
  if env.mkdirFails then
    .error .mkdirFailed
  else
    .ok (convertTry c env
      ⟨input, output, 0, 0, (0, 0), (0, 0), "", false, none⟩)

/-! ## Batch executor (`convert_batch`, lines 205–228) -/

/-- One step of the batch fold: the inner `_convert` closure (lines
217–221) run for one pair, appending its single result to the shared
list, with an exception from `convert_single` propagating. -/
def batchStep (c : Converter) (acc : List Outcome)
    (j : Env × String × String) : Except ConvErr (List Outcome) :=
  match convert_single c j.1 j.2.1 j.2.2 with
  | .error e => .error e
  | .ok rfs => .ok (acc ++ [rfs.1])

/-- Embedding of `convert_batch`, as its sequential linearisation: one
`convert_single` per submitted pair, each appending exactly one result
to the shared list.  An exception raised by a task body propagates
through `future.result()` and aborts the call (`Except.error`), exactly
as in the Python code; otherwise the full result list is returned. -/
def convert_batch (c : Converter) (jobs : List (Env × String × String)) :
    Except ConvErr (List Outcome) :=
  jobs.foldlM (batchStep c) []

/-! ## Event-level view of the encoding step

To reason about write atomicity we also give the encoding step as a
trace of filesystem events on the two paths it touches.  Paths are
identified by their final component: the output file and the temporary
file live in the same parent directory, so the component determines the
path. -/

/-- An observable filesystem event at a path. `writeStart p` means bytes
begin to land at `p` (a reader could now see a partially written file
there); `writeEnd p` completes such a write; `renamed src dst` is the
atomic rename. -/
inductive FsEvent where
  | writeStart (p : String)
  | writeEnd (p : String)
  | unlink (p : String)
  | renamed (src dst : String)
deriving Repr, DecidableEq

/-- Temporary name used by `_try_both_webp` (line 185):
`'_temp_' + output_path.name`, in the same directory. -/
def tempName (output : String) : String := "_temp_" ++ output

/-- Events of one candidate iteration of `_try_both_webp` (lines
187–201).  A failed `save` may have begun a partial write at the temp
path before raising; the handler unlinks whatever is there.  A
successful candidate that beats `best_size` unlinks the previous output
file (if any) and renames the temp file over the output path; one that
does not is unlinked. -/
def webpStepTrace (res : Option Nat) (st : BestState) (out : String) : List FsEvent :=
  match res with
  | none =>
      [.writeStart (tempName out), .unlink (tempName out)]
  | some sz =>
      if ltBest sz st.bestSize then
        [.writeStart (tempName out), .writeEnd (tempName out)] ++
          (if st.fs.output.isSome then [.unlink out] else []) ++
          [.renamed (tempName out) out]
      else
        [.writeStart (tempName out), .writeEnd (tempName out), .unlink (tempName out)]

/-- Event trace of a full `_try_both_webp` call: the `'lossless'`
candidate followed by the `'lossy'` candidate. -/
def try_both_webp_trace (env : Env) (fs0 : FS) (out : String) : List FsEvent :=
  let st0 : BestState := ⟨fs0, none, "lossy"⟩
  let st1 := webpStep env.losslessResult "lossless" st0
  webpStepTrace env.losslessResult st0 out ++ webpStepTrace env.lossyResult st1 out

/-- Event trace of the encoding step of `convert_single` (lines
151–159): auto-WebP goes through the selector; every other
configuration is a single direct `processed.save(output_path, ...)`,
which streams bytes straight to the final output path (and stops midway
if the encoder raises). -/
def encodeTrace (c : Converter) (env : Env) (out : String) : List FsEvent :=
  if c.output_format = "webp" ∧ c.method = "auto" then
    try_both_webp_trace env env.fs0 out
  else
    match env.fixedSave with
    | none => [.writeStart out]
    | some _ => [.writeStart out, .writeEnd out]

/-- A trace writes the path `out` atomically when no write is ever
begun directly at `out`: all content arrives by rename, so no observer
of `out` can see a partially written file there. -/
def atomicAt (out : String) (tr : List FsEvent) : Prop :=
  FsEvent.writeStart out ∉ tr

/-! ## Session store and reclaimer (webapp/utils.py) -/

/-- TTL for session directories (utils.py, line 11). -/
def SESSION_MAX_AGE : ℤ := 3600

/-- A top-level entry of the uploads or conversions root, as seen by
`base.iterdir()`: its name, whether it is a directory, its
last-modification time, and whether `folder.stat()` raises when
inspected. -/
structure DirEntry where
  name : String
  isDirectory : Bool
  mtime : ℤ
  statFails : Bool
deriving Repr, DecidableEq

/-- Sweep of one root (utils.py, lines 49–57): non-directories are
skipped; a `stat` failure is swallowed and the entry survives; a
directory whose age `now - mtime` strictly exceeds `SESSION_MAX_AGE` is
removed recursively (`shutil.rmtree`; deletion itself is modelled as
succeeding — `ignore_errors=True` only swallows errors).  The returned
list is what remains. -/
def sweepBase (now : ℤ) (entries : List DirEntry) : List DirEntry :=
  entries.filter fun folder =>
    !(folder.isDirectory && !folder.statFails &&
      decide (now - folder.mtime > SESSION_MAX_AGE))

/-- Embedding of `cleanup_old_sessions` (lines 43–57): one sweep over
the uploads root and one over the conversions root. -/
def cleanup_old_sessions (now : ℤ) (uploadEntries conversionEntries : List DirEntry) :
    List DirEntry × List DirEntry :=
  (sweepBase now uploadEntries, sweepBase now conversionEntries)

/-! ## Session directories and filename sanitisation

Paths are modelled as lists of components from the filesystem root.
`base` stands for the (already resolved) directory holding the service's
data roots. -/

/-- Uploads root (utils.py, line 9). -/
def UPLOAD_DIR (base : List String) : List String := base ++ ["uploads"]

/-- Conversions root (utils.py, line 10). -/
def CONVERSION_DIR (base : List String) : List String := base ++ ["conversions"]

/-- Embedding of `session_upload_dir` (utils.py, lines 19–22): the
identifier's components are joined to the uploads root unchecked, and
the resulting directory is created (`mkdir(parents=True)`). -/
def session_upload_dir (base session_id : List String) : List String :=
  UPLOAD_DIR base ++ session_id

/-- Embedding of `session_conversion_dir` (utils.py, lines 25–28). -/
def session_conversion_dir (base session_id : List String) : List String :=
  CONVERSION_DIR base ++ session_id

/-- OS-level resolution of `..` and `.` components, as performed by the
kernel when the path is actually created. -/
def resolvePath (p : List String) : List String :=
  p.foldl
    (fun acc c =>
      if c = ".." then acc.dropLast else if c = "." then acc else acc ++ [c])
    []

/-- `p` lies inside the directory `root`. -/
def underDir (root p : List String) : Prop := ∃ rest, p = root ++ rest

/-- Filename sanitisation in the upload route (routes.py, line 41):
`Path(f.filename).name` keeps only the final component. -/
def sanitize_filename (filename : List String) : String := filename.getLastD ""

/-- Destination of a stored upload (routes.py, line 44): the sanitised
single component under the session's upload directory. -/
def upload_dest (base sid filename : List String) : List String :=
  session_upload_dir base sid ++ [sanitize_filename filename]

/-! ## Spec-side mode-normalisation rule (for the refinement claim C8) -/

/-- Source modes that are palette-indexed. -/
def paletteMode (mode : String) : Prop := mode = "P" ∨ mode = "PA"

/-- Source modes that carry an alpha channel. -/
def alphaMode (mode : String) : Prop := mode = "RGBA" ∨ mode = "LA" ∨ mode = "PA"

instance : DecidablePred paletteMode := fun m => by unfold paletteMode; infer_instance

instance : DecidablePred alphaMode := fun m => by unfold alphaMode; infer_instance

/-- Alpha capability of the supported output formats.  JPEG has no
alpha support (stated by the code's own comment at line 137) and WebP
has it (the code expands `P` to `RGBA` for WebP, line 140); the
remaining entries follow the formats' standard capabilities. -/
def formatSupportsAlpha (fmt : String) : Bool :=
  fmt = "webp" || fmt = "png" || fmt = "tiff" || fmt = "ico"

/-- Modelled from the spec (§4.2): "if the destination format lacks
alpha support, convert palette/alpha images to an opaque 3-channel
representation first; if the destination format supports alpha and the
source is palette-indexed, expand to a direct alpha-capable
representation first."  This is the rule the claim says holds for every
destination format, to be compared against `normalizeMode` from the
source. -/
def specNormalizeMode (fmt mode : String) : String :=
  if ¬ formatSupportsAlpha fmt ∧ (paletteMode mode ∨ alphaMode mode) then "RGB"
  else if formatSupportsAlpha fmt ∧ paletteMode mode then "RGBA"
  else mode

/-! # Theorems -/

/-! ## Resizer (claims C6, C7) -/

lemma pytrunc_of_nonneg {q : ℚ} (h : 0 ≤ q) : pytrunc q = ⌊q⌋ := by
  unfold pytrunc
  rw [if_neg (not_lt.mpr h)]

/-- C6: for positive original dimensions `(w, h)` and a positive target
box `(W, H)`, `calculate_aspect_ratio_resize` follows the stated branch
rule — if `w/h > W/H` the result is `(W, ⌊W / (w/h)⌋)`, otherwise
`(⌊H * (w/h)⌋, H)` — hence both result components are bounded by the
target box; and the two concrete examples from the spec hold. -/
theorem fit_branch_rule_and_bounds :
    (∀ w h W H : ℤ, 0 < w → 0 < h → 0 < W → 0 < H →
      (((W : ℚ) / H < (w : ℚ) / h →
          calculate_aspect_ratio_resize (w, h) (W, H) =
            (W, ⌊(W : ℚ) / ((w : ℚ) / h)⌋)) ∧
        (¬ (W : ℚ) / H < (w : ℚ) / h →
          calculate_aspect_ratio_resize (w, h) (W, H) =
            (⌊(H : ℚ) * ((w : ℚ) / h)⌋, H)) ∧
        (calculate_aspect_ratio_resize (w, h) (W, H)).1 ≤ W ∧
        (calculate_aspect_ratio_resize (w, h) (W, H)).2 ≤ H)) ∧
    calculate_aspect_ratio_resize (800, 600) (512, 512) = (512, 384) ∧
    calculate_aspect_ratio_resize (300, 600) (512, 512) = (256, 512) := by
  refine ⟨?_, ?_, ?_⟩
  · intro w h W H hw hh hW hH
    have hwq : (0 : ℚ) < (w : ℚ) := by exact_mod_cast hw
    have hhq : (0 : ℚ) < (h : ℚ) := by exact_mod_cast hh
    have hWq : (0 : ℚ) < (W : ℚ) := by exact_mod_cast hW
    have hHq : (0 : ℚ) < (H : ℚ) := by exact_mod_cast hH
    have haspect : (0 : ℚ) < (w : ℚ) / (h : ℚ) := div_pos hwq hhq
    by_cases hlt : (W : ℚ) / H < (w : ℚ) / h
    · have heval : calculate_aspect_ratio_resize (w, h) (W, H) =
          (W, ⌊(W : ℚ) / ((w : ℚ) / h)⌋) := by
        simp only [calculate_aspect_ratio_resize, if_pos hlt]
        rw [pytrunc_of_nonneg (le_of_lt (div_pos hWq haspect))]
      refine ⟨fun _ => heval, fun hcon => absurd hlt hcon, ?_, ?_⟩
      · rw [heval]
      · rw [heval]
        have hx : (W : ℚ) / ((w : ℚ) / h) < (H : ℚ) := by
          rw [div_lt_iff₀ haspect]
          calc (W : ℚ) = (W : ℚ) / H * H := by field_simp
            _ < (w : ℚ) / h * H := by
                exact mul_lt_mul_of_pos_right hlt hHq
            _ = (H : ℚ) * ((w : ℚ) / h) := by ring
        exact le_of_lt (Int.floor_lt.mpr hx)
    · have heval : calculate_aspect_ratio_resize (w, h) (W, H) =
          (⌊(H : ℚ) * ((w : ℚ) / h)⌋, H) := by
        simp only [calculate_aspect_ratio_resize, if_neg hlt]
        rw [pytrunc_of_nonneg (le_of_lt (mul_pos hHq haspect))]
      refine ⟨fun hcon => absurd hcon hlt, fun _ => heval, ?_, ?_⟩
      · rw [heval]
        have hx : (H : ℚ) * ((w : ℚ) / h) ≤ (W : ℚ) := by
          have hle : (w : ℚ) / h ≤ (W : ℚ) / H := not_lt.mp hlt
          calc (H : ℚ) * ((w : ℚ) / h) ≤ (H : ℚ) * ((W : ℚ) / H) :=
                mul_le_mul_of_nonneg_left hle (le_of_lt hHq)
            _ = (W : ℚ) := by field_simp
        calc ⌊(H : ℚ) * ((w : ℚ) / h)⌋ ≤ ⌊(W : ℚ)⌋ := Int.floor_le_floor hx
          _ = W := Int.floor_intCast W
      · rw [heval]
  · unfold calculate_aspect_ratio_resize pytrunc
    norm_num
  · unfold calculate_aspect_ratio_resize pytrunc
    norm_num

/-- Witness for C6 at the concrete input `(800, 600)`, `(512, 512)`. -/
theorem fit_branch_rule_and_bounds_witness :
    (calculate_aspect_ratio_resize (800, 600) (512, 512)).1 ≤ 512 ∧
    (calculate_aspect_ratio_resize (800, 600) (512, 512)).2 ≤ 512 := by
  have h := (fit_branch_rule_and_bounds.1 800 600 512 512
    (by norm_num) (by norm_num) (by norm_num) (by norm_num))
  exact ⟨h.2.2.1, h.2.2.2⟩

/-- C7 counterexample: the all-positive input `(1000, 1)` with target
box `(512, 512)` yields `(512, 0)` — the returned height is zero, not a
positive integer, refuting the claim as stated. -/
theorem fit_zero_height_cex :
    (0 : ℤ) < 1000 ∧ (0 : ℤ) < 1 ∧ (0 : ℤ) < 512 ∧
    calculate_aspect_ratio_resize (1000, 1) (512, 512) = (512, 0) ∧
    ¬ 0 < (calculate_aspect_ratio_resize (1000, 1) (512, 512)).2 := by
  refine ⟨by norm_num, by norm_num, by norm_num, ?_, ?_⟩ <;>
    · unfold calculate_aspect_ratio_resize pytrunc
      norm_num

/-- C7 amended: for positive original dimensions and a positive target
box, both returned dimensions are nonnegative, and at least one of them
equals the corresponding side of the target box (that one is positive);
the other dimension may truncate to zero for extreme aspect ratios. -/
theorem fit_dims_nonneg :
    ∀ w h W H : ℤ, 0 < w → 0 < h → 0 < W → 0 < H →
      0 ≤ (calculate_aspect_ratio_resize (w, h) (W, H)).1 ∧
      0 ≤ (calculate_aspect_ratio_resize (w, h) (W, H)).2 ∧
      ((calculate_aspect_ratio_resize (w, h) (W, H)).1 = W ∨
        (calculate_aspect_ratio_resize (w, h) (W, H)).2 = H) := by
  intro w h W H hw hh hW hH
  have hwq : (0 : ℚ) < (w : ℚ) := by exact_mod_cast hw
  have hhq : (0 : ℚ) < (h : ℚ) := by exact_mod_cast hh
  have hWq : (0 : ℚ) < (W : ℚ) := by exact_mod_cast hW
  have hHq : (0 : ℚ) < (H : ℚ) := by exact_mod_cast hH
  have haspect : (0 : ℚ) < (w : ℚ) / (h : ℚ) := div_pos hwq hhq
  by_cases hlt : (W : ℚ) / H < (w : ℚ) / h
  · have heval : calculate_aspect_ratio_resize (w, h) (W, H) =
        (W, ⌊(W : ℚ) / ((w : ℚ) / h)⌋) := by
      simp only [calculate_aspect_ratio_resize, if_pos hlt]
      rw [pytrunc_of_nonneg (le_of_lt (div_pos hWq haspect))]
    rw [heval]
    exact ⟨le_of_lt hW,
      Int.floor_nonneg.mpr (le_of_lt (div_pos hWq haspect)), Or.inl rfl⟩
  · have heval : calculate_aspect_ratio_resize (w, h) (W, H) =
        (⌊(H : ℚ) * ((w : ℚ) / h)⌋, H) := by
      simp only [calculate_aspect_ratio_resize, if_neg hlt]
      rw [pytrunc_of_nonneg (le_of_lt (mul_pos hHq haspect))]
    rw [heval]
    exact ⟨Int.floor_nonneg.mpr (le_of_lt (mul_pos hHq haspect)),
      le_of_lt hH, Or.inr rfl⟩

/-- Witness for the amended C7 at the concrete input `(1000, 1)`,
`(512, 512)`. -/
theorem fit_dims_nonneg_witness :
    0 ≤ (calculate_aspect_ratio_resize (1000, 1) (512, 512)).1 ∧
    0 ≤ (calculate_aspect_ratio_resize (1000, 1) (512, 512)).2 ∧
    ((calculate_aspect_ratio_resize (1000, 1) (512, 512)).1 = 512 ∨
      (calculate_aspect_ratio_resize (1000, 1) (512, 512)).2 = 512) :=
  fit_dims_nonneg 1000 1 512 512 (by norm_num) (by norm_num)
    (by norm_num) (by norm_num)

/-! ## Auto-WebP selector (claims C4, C5) -/

/-- C4: in an auto-policy encode where at least one candidate succeeds
and no file pre-exists at the output path, afterwards exactly one file
sits at the output path and no temporary file is left; its size is ≤
the size of every successfully encoded candidate; and on a tie
(`lossy` not strictly smaller than `lossless`) the first strategy
tried, `lossless`, is kept and reported. -/
theorem try_both_webp_keeps_smallest (env : Env) (fs0 : FS)
    (_hout : fs0.output = none)
    (hsucc : env.losslessResult.isSome ∨ env.lossyResult.isSome) :
    ∃ s : Nat,
      (try_both_webp env fs0).2.output = some s ∧
      (try_both_webp env fs0).2.temp = none ∧
      (∀ a, env.losslessResult = some a → s ≤ a) ∧
      (∀ b, env.lossyResult = some b → s ≤ b) ∧
      (∀ a, env.losslessResult = some a → env.lossyResult = none →
        (try_both_webp env fs0).1 = "lossless" ∧ s = a) ∧
      (∀ b, env.losslessResult = none → env.lossyResult = some b →
        (try_both_webp env fs0).1 = "lossy" ∧ s = b) ∧
      (∀ a b, env.losslessResult = some a → env.lossyResult = some b →
        (b < a → (try_both_webp env fs0).1 = "lossy" ∧ s = b) ∧
        (a ≤ b → (try_both_webp env fs0).1 = "lossless" ∧ s = a)) := by
  rcases hl : env.losslessResult with _ | a
  · rcases hy : env.lossyResult with _ | b
    · rw [hl, hy] at hsucc
      simp at hsucc
    · refine ⟨b, ?_⟩
      simp [try_both_webp, webpStep, ltBest, hl, hy]
  · rcases hy : env.lossyResult with _ | b
    · refine ⟨a, ?_⟩
      simp [try_both_webp, webpStep, ltBest, hl, hy]
    · by_cases hba : b < a
      · refine ⟨b, ?_⟩
        simp [try_both_webp, webpStep, ltBest, hl, hy, hba]
        omega
      · refine ⟨a, ?_⟩
        simp [try_both_webp, webpStep, ltBest, hl, hy, hba]
        omega

/-- Environment in which both WebP candidates succeed with the same
10-byte result — a size tie. -/
def envTie : Env :=
  ⟨false, some 100, some ⟨10, 10, "RGB"⟩, false, none, some 10, some 10,
    ⟨none, none⟩⟩

/-- Witness for C4: on the concrete tie environment the selector leaves
one 10-byte file, no temp file, and keeps the first strategy tried,
`lossless`. -/
theorem try_both_webp_keeps_smallest_witness :
    (try_both_webp envTie ⟨none, none⟩).2.output = some 10 ∧
    (try_both_webp envTie ⟨none, none⟩).2.temp = none ∧
    (try_both_webp envTie ⟨none, none⟩).1 = "lossless" := by
  obtain ⟨s, h1, h2, _, _, _, _, h7⟩ :=
    try_both_webp_keeps_smallest envTie ⟨none, none⟩ rfl (Or.inl rfl)
  obtain ⟨hbm, hs⟩ := (h7 10 10 rfl rfl).2 (le_refl 10)
  subst hs
  exact ⟨h1, h2, hbm⟩

/-- Converter configured as in the main use case: WebP output with the
auto strategy selector. -/
def cAuto : Converter := ⟨"webp", "auto", 90, false, (512, 512)⟩

/-- Environment for the C5 counterexample: a stale 55-byte file already
sits at the output path, the input decodes fine, and both WebP
candidate encodes fail. -/
def envStale : Env :=
  ⟨false, some 100, some ⟨10, 10, "RGB"⟩, false, none, none, none,
    ⟨some 55, none⟩⟩

/-- C5 counterexample: with both candidates failing and a pre-existing
file at the output path, `convert_single` leaves the stale file in
place and reports `success = true` — the claim requires `success =
false` and no file at the output path. -/
theorem webp_all_fail_stale_cex :
    envStale.losslessResult = none ∧ envStale.lossyResult = none ∧
    envStale.fs0.output = some 55 ∧
    convert_single cAuto envStale "in.png" "out.webp" =
      .ok (⟨"in.png", "out.webp", 100, 55, (10, 10), (10, 10), "lossy",
        true, none⟩, ⟨some 55, none⟩) :=
  ⟨rfl, rfl, rfl, rfl⟩

/-- C5 amended: in an auto-policy encode where every candidate fails
and no file pre-existed at the output path, the outcome reports
`success = false` and no file is present at the output path (nor at the
temporary path) after the call.  When a file pre-existed the code
instead leaves it there and reports success (see the counterexample). -/
theorem webp_all_fail_reports_failure (c : Converter) (env : Env)
    (i o : String)
    (hc1 : c.output_format = "webp") (hc2 : c.method = "auto")
    (hmk : env.mkdirFails = false)
    (hl : env.losslessResult = none) (hy : env.lossyResult = none)
    (h0 : env.fs0.output = none) :
    ∃ r fs, convert_single c env i o = .ok (r, fs) ∧
      r.success = false ∧ fs.output = none := by
  rw [convert_single, if_neg (by simp [hmk])]
  rcases hi : env.inputSize with _ | isz
  · exact ⟨_, _, rfl, by simp [convertTry, hi, h0, ← hmk]⟩
  · rcases hdec : env.decoded with _ | img
    · exact ⟨_, _, rfl, by simp [convertTry, hi, hdec, h0]⟩
    · by_cases hr : c.resize
      · by_cases hrf : env.resizeFails
        · exact ⟨_, _, rfl, by simp [convertTry, hi, hdec, hr, hrf, h0]⟩
        · exact ⟨_, _, rfl, by
            simp [convertTry, hi, hdec, hr, hrf, encodeStep, hc1, hc2,
              try_both_webp, webpStep, hl, hy, finishOutcome, h0]⟩
      · exact ⟨_, _, rfl, by
          simp [convertTry, hi, hdec, hr, encodeStep, hc1, hc2,
            try_both_webp, webpStep, hl, hy, finishOutcome, h0]⟩

/-- Environment in which both WebP candidates fail and nothing
pre-exists at the output path. -/
def envAllFail : Env :=
  ⟨false, some 100, some ⟨10, 10, "RGB"⟩, false, none, none, none,
    ⟨none, none⟩⟩

/-- Witness for the amended C5 at a concrete environment with no
pre-existing output file and both candidates failing. -/
theorem webp_all_fail_reports_failure_witness :
    ∃ r fs,
      convert_single cAuto envAllFail "in.png" "out.webp" = .ok (r, fs) ∧
      r.success = false ∧ fs.output = none :=
  webp_all_fail_reports_failure cAuto envAllFail
    "in.png" "out.webp" rfl rfl rfl rfl rfl rfl

/-! ## Write atomicity (claim C3) -/

lemma tempName_ne (out : String) : tempName out ≠ out := by
  intro h
  have hd : ("_temp_".data ++ out.data).length = out.data.length := by
    have := congrArg String.data h
    simpa [tempName, String.data_append] using congrArg List.length this
  simp [List.length_append] at hd
  omega

/-- Converter using a fixed encode strategy for WebP output. -/
def cLossless : Converter := ⟨"webp", "lossless", 90, false, (512, 512)⟩

/-- Environment whose fixed-strategy save succeeds, writing 42 bytes. -/
def envFixedOk : Env :=
  ⟨false, some 100, some ⟨10, 10, "RGB"⟩, false, some 42, none, none,
    ⟨none, none⟩⟩

/-- C3 counterexample: under the fixed encode policy the encoder
streams bytes directly to the final output path — the trace begins a
write at the output path itself, so the write is not atomic and an
observer can see a partially written file there. -/
theorem fixed_write_not_atomic_cex :
    encodeTrace cLossless envFixedOk "out.webp" =
      [FsEvent.writeStart "out.webp", FsEvent.writeEnd "out.webp"] ∧
    ¬ atomicAt "out.webp" (encodeTrace cLossless envFixedOk "out.webp") := by
  refine ⟨rfl, fun hat => hat ?_⟩
  rw [show encodeTrace cLossless envFixedOk "out.webp" =
    [FsEvent.writeStart "out.webp", FsEvent.writeEnd "out.webp"] from rfl]
  exact List.mem_cons_self _ _

lemma writeStart_not_mem_webpStepTrace (res : Option Nat) (st : BestState)
    (out : String) :
    FsEvent.writeStart out ∉ webpStepTrace res st out := by
  have hne := tempName_ne out
  intro hm
  rcases res with _ | sz
  · simp [webpStepTrace] at hm
    exact hne hm.symm
  · simp only [webpStepTrace] at hm
    split at hm
    · by_cases hc : st.fs.output.isSome <;> simp [hc] at hm <;>
        exact hne hm.symm
    · simp at hm
      exact hne hm.symm

/-- C3 amended: only the auto-WebP policy writes atomically — every
write in its trace is begun at the temporary name and content reaches
the output path by rename only, so no observer of the output path ever
sees a partially written file; the fixed policy instead writes directly
to the output path (see the counterexample). -/
theorem auto_webp_write_atomic (c : Converter) (env : Env) (out : String)
    (h1 : c.output_format = "webp") (h2 : c.method = "auto") :
    atomicAt out (encodeTrace c env out) := by
  unfold atomicAt encodeTrace
  rw [if_pos ⟨h1, h2⟩]
  unfold try_both_webp_trace
  intro hmem
  rcases List.mem_append.mp hmem with hm | hm <;>
    exact writeStart_not_mem_webpStepTrace _ _ _ hm

/-- Witness for the amended C3 at the auto-WebP configuration. -/
theorem auto_webp_write_atomic_witness :
    atomicAt "out.webp" (encodeTrace cAuto envStale "out.webp") :=
  auto_webp_write_atomic cAuto envStale "out.webp" rfl rfl

/-! ## Task-boundary error handling and the batch executor (claims C1, C2) -/

lemma convert_single_isOk (c : Converter) (env : Env) (i o : String)
    (h : env.mkdirFails = false) :
    ∃ r fs, convert_single c env i o = .ok (r, fs) := by
  rw [convert_single, if_neg (by simp [h])]
  exact ⟨_, _, rfl⟩

lemma convert_batch_go (c : Converter) (jobs : List (Env × String × String)) :
    ∀ acc : List Outcome, (∀ j ∈ jobs, j.1.mkdirFails = false) →
      ∃ rs, jobs.foldlM (batchStep c) acc = .ok rs ∧
        rs.length = acc.length + jobs.length := by
  induction jobs with
  | nil =>
    intro acc _
    exact ⟨acc, rfl, by simp⟩
  | cons j tl ih =>
    intro acc h
    have hj : j.1.mkdirFails = false := h j (List.mem_cons_self _ _)
    obtain ⟨r, fs, hok⟩ := convert_single_isOk c j.1 j.2.1 j.2.2 hj
    obtain ⟨rs, hrs, hlen⟩ :=
      ih (acc ++ [r]) (fun j' hj' => h j' (List.mem_cons_of_mem _ hj'))
    refine ⟨rs, ?_, by simp at hlen ⊢; omega⟩
    rw [List.foldlM_cons]
    have hstep : batchStep c acc j = .ok (acc ++ [r]) := by
      unfold batchStep
      rw [hok]
    rw [hstep]
    simpa using hrs

lemma finishOutcome_failed_has_error (r : Outcome) (fs : FS) :
    (finishOutcome r fs).1.success = false →
    (finishOutcome r fs).1.error = some "output file not found" := by
  unfold finishOutcome
  rcases fs.output with _ | csz
  · intro _; rfl
  · intro h; simp at h

lemma encodeStep_failed_has_error (c : Converter) (env : Env) (r : Outcome) :
    (encodeStep c env r).1.success = false →
    ∃ m, (encodeStep c env r).1.error = some m ∧ m ≠ "" := by
  unfold encodeStep
  split
  · intro h
    exact ⟨_, finishOutcome_failed_has_error _ _ h, by decide⟩
  · rcases env.fixedSave with _ | sz
    · intro _; exact ⟨_, rfl, by decide⟩
    · intro h
      exact ⟨_, finishOutcome_failed_has_error _ _ h, by decide⟩

lemma convertTry_failed_has_error (c : Converter) (env : Env) (r0 : Outcome) :
    (convertTry c env r0).1.success = false →
    ∃ m, (convertTry c env r0).1.error = some m ∧ m ≠ "" := by
  unfold convertTry
  rcases env.inputSize with _ | isz
  · intro _; exact ⟨_, rfl, by decide⟩
  · rcases env.decoded with _ | img
    · intro _; exact ⟨_, rfl, by decide⟩
    · by_cases hr : c.resize <;> simp only [hr, if_true, if_false]
      · by_cases hrf : env.resizeFails <;> simp only [hrf, if_true, if_false]
        · intro _; exact ⟨_, rfl, by decide⟩
        · exact encodeStep_failed_has_error c env _
      · exact encodeStep_failed_has_error c env _

/-- C2 amended: provided the pre-`try` directory creation for the
output parent succeeds, every exception raised while converting one
file (missing input, decode failure, failing encode, missing output) is
caught at the task boundary: `convert_single` returns an outcome to its
caller instead of raising, a failed outcome carries a non-empty error
string, and a batch of such tasks is never aborted by a failing task.
A directory-creation failure, however, occurs before the `try` block
and propagates to the caller, aborting the batch (see the
counterexample). -/
theorem convert_single_catches_body_exceptions (c : Converter) (env : Env)
    (i o : String) (h : env.mkdirFails = false) :
    (∃ r fs, convert_single c env i o = .ok (r, fs) ∧
      (r.success = false → ∃ m, r.error = some m ∧ m ≠ "")) ∧
    (∀ jobs : List (Env × String × String),
      (∀ j ∈ jobs, j.1.mkdirFails = false) →
      ∃ rs, convert_batch c jobs = .ok rs) := by
  constructor
  · rw [convert_single, if_neg (by simp [h])]
    exact ⟨_, _, rfl, convertTry_failed_has_error c env _⟩
  · intro jobs hjobs
    obtain ⟨rs, hrs, -⟩ := convert_batch_go c jobs [] hjobs
    exact ⟨rs, hrs⟩

/-- Environment whose output-parent `mkdir` raises (for instance, a
regular file occupies the parent path); everything else would
succeed. -/
def envMkdirFail : Env :=
  ⟨true, some 100, some ⟨10, 10, "RGB"⟩, false, some 42, none, none,
    ⟨none, none⟩⟩

/-- C2 counterexample: a directory-creation failure for the output
parent is raised by `output_path.parent.mkdir(...)` before the `try`
block of `convert_single`, so `convert_single` raises to its caller
instead of returning a failed outcome. -/
theorem convert_single_mkdir_raises_cex :
    convert_single cLossless envMkdirFail "in.png" "out.webp" =
      .error .mkdirFailed := rfl

/-- Witness for the amended C2 at a concrete task whose decode and
encodes fail but whose directory creation succeeds. -/
theorem convert_single_catches_body_exceptions_witness :
    (∃ r fs,
      convert_single cAuto envAllFail "in.png" "out.webp" = .ok (r, fs) ∧
      (r.success = false → ∃ m, r.error = some m ∧ m ≠ "")) ∧
    (∃ rs,
      convert_batch cAuto [(envAllFail, "in.png", "out.webp")] = .ok rs) := by
  obtain ⟨h1, h2⟩ :=
    convert_single_catches_body_exceptions cAuto envAllFail "in.png" "out.webp" rfl
  exact ⟨h1, h2 [(envAllFail, "in.png", "out.webp")] (by decide)⟩

/-- C1 amended: provided no task hits an output-directory-creation
failure (which raises before the per-task `try` and aborts the whole
call — see the counterexample), `convert_batch` returns a result
collection with exactly one outcome per submitted pair: its length
equals the number of pairs, however many individual conversions fail
inside their `try` block. -/
theorem convert_batch_length (c : Converter)
    (jobs : List (Env × String × String))
    (h : ∀ j ∈ jobs, j.1.mkdirFails = false) :
    ∃ rs, convert_batch c jobs = .ok rs ∧ rs.length = jobs.length := by
  obtain ⟨rs, hrs, hlen⟩ := convert_batch_go c jobs [] h
  exact ⟨rs, hrs, by simpa using hlen⟩

/-- Witness for the amended C1: a two-task batch in which the second
task fails to decode still returns exactly two outcomes. -/
theorem convert_batch_length_witness :
    ∃ rs,
      convert_batch cAuto
        [(envTie, "a.png", "a.webp"),
          (⟨false, none, none, false, none, none, none, ⟨none, none⟩⟩,
            "missing.png", "missing.webp")] = .ok rs ∧
      rs.length = 2 :=
  convert_batch_length cAuto
    [(envTie, "a.png", "a.webp"),
      (⟨false, none, none, false, none, none, none, ⟨none, none⟩⟩,
        "missing.png", "missing.webp")]
    (by decide)

/-- C1 counterexample: a two-task batch whose first task hits a
directory-creation failure returns no result collection at all — the
exception escapes `convert_single`, propagates through
`future.result()`, and aborts `convert_batch` — refuting the claim that
every submitted list yields one outcome per pair. -/
theorem convert_batch_abort_cex :
    convert_batch cLossless
      [(envMkdirFail, "a.png", "a.webp"), (envFixedOk, "b.png", "b.webp")] =
      .error .mkdirFailed := rfl

/-! ## Mode normalisation (claim C8) -/

/-- C8 counterexample: JPEG lacks alpha support and mode `PA`
(palette with alpha) is both palette-indexed and alpha-carrying, so the
spec rule demands conversion to the opaque 3-channel `RGB`; the code's
normalisation leaves a `PA` source untouched because it tests only the
modes `RGBA`, `P`, `LA`.  The code therefore does not implement the
format-generic rule. -/
theorem normalize_mode_spec_rule_cex :
    normalizeMode "jpeg" "PA" = "PA" ∧
    specNormalizeMode "jpeg" "PA" = "RGB" ∧
    normalizeMode "jpeg" "PA" ≠ specNormalizeMode "jpeg" "PA" := by
  refine ⟨rfl, rfl, ?_⟩
  decide

/-- C8 amended: the normalisation implements the spec's alpha/palette
rule only on the destination formats the code special-cases (`jpeg`,
`jpg`, `webp`) and the source modes it tests (`RGB`, `L`, `RGBA`, `P`,
`LA`); on that fragment the code agrees with the spec rule, while other
destination formats and the palette-with-alpha mode `PA` are passed
through unnormalised (see the counterexample). -/
theorem normalize_mode_matches_spec_on_handled (fmt mode : String)
    (hf : fmt = "jpeg" ∨ fmt = "jpg" ∨ fmt = "webp")
    (hm : mode = "RGB" ∨ mode = "L" ∨ mode = "RGBA" ∨ mode = "P" ∨ mode = "LA") :
    normalizeMode fmt mode = specNormalizeMode fmt mode := by
  rcases hf with rfl | rfl | rfl <;>
    rcases hm with rfl | rfl | rfl | rfl | rfl <;> decide

/-- Witness for the amended C8 at the concrete pair
(`jpeg`, `RGBA`). -/
theorem normalize_mode_matches_spec_on_handled_witness :
    normalizeMode "jpeg" "RGBA" = specNormalizeMode "jpeg" "RGBA" :=
  normalize_mode_matches_spec_on_handled "jpeg" "RGBA"
    (Or.inl rfl) (Or.inr (Or.inr (Or.inl rfl)))

/-! ## Session reclaimer (claim C9) -/

/-- C9: one sweep of `cleanup_old_sessions` removes a top-level
directory of the uploads root or of the conversions root exactly when
its age `now - mtime` strictly exceeds `SESSION_MAX_AGE` (3600 s);
a directory whose age does not exceed the TTL survives the sweep
untouched.  (Directory removal itself is modelled as succeeding;
`shutil.rmtree(..., ignore_errors=True)` swallows failures.) -/
theorem cleanup_deletes_iff_stale (now : ℤ)
    (uploadEntries conversionEntries : List DirEntry) (e : DirEntry)
    (hd : e.isDirectory = true) (hs : e.statFails = false) :
    (e ∈ uploadEntries →
      (e ∉ (cleanup_old_sessions now uploadEntries conversionEntries).1 ↔
        SESSION_MAX_AGE < now - e.mtime)) ∧
    (e ∈ conversionEntries →
      (e ∉ (cleanup_old_sessions now uploadEntries conversionEntries).2 ↔
        SESSION_MAX_AGE < now - e.mtime)) := by
  constructor <;> intro hmem <;>
    simp [cleanup_old_sessions, sweepBase, List.mem_filter, hd, hs, hmem] <;>
    omega

/-- Witness for C9: with `now = 10000`, a directory last modified at
time 0 (age 10000 > 3600) is removed from the uploads root, and one
last modified at 9000 (age 1000) survives. -/
theorem cleanup_deletes_iff_stale_witness :
    (⟨"old", true, 0, false⟩ : DirEntry) ∉
      (cleanup_old_sessions 10000
        [⟨"old", true, 0, false⟩, ⟨"new", true, 9000, false⟩] []).1 ∧
    (⟨"new", true, 9000, false⟩ : DirEntry) ∈
      (cleanup_old_sessions 10000
        [⟨"old", true, 0, false⟩, ⟨"new", true, 9000, false⟩] []).1 := by
  constructor
  · exact ((cleanup_deletes_iff_stale 10000
      [⟨"old", true, 0, false⟩, ⟨"new", true, 9000, false⟩] []
      ⟨"old", true, 0, false⟩ rfl rfl).1
      (List.mem_cons_self _ _)).mpr (by decide)
  · by_contra hmem
    exact absurd (((cleanup_deletes_iff_stale 10000
      [⟨"old", true, 0, false⟩, ⟨"new", true, 9000, false⟩] []
      ⟨"new", true, 9000, false⟩ rfl rfl).1
      (List.mem_cons_of_mem _ (List.mem_cons_self _ _))).mp hmem)
      (by decide)

/-! ## Session directory traversal (claim C10) -/

/-- C10: the session-directory operations perform no sanitisation — for
every identifier the returned (and created) directory is exactly the
root joined with the identifier's components unchecked — so an
identifier containing `..` yields a directory outside the
uploads/conversions roots once the kernel resolves the path; stored
filenames, in contrast, are reduced to their base name (final
component) before being joined. -/
theorem session_dirs_unsanitized (base : List String)
    (hb : resolvePath base = base) :
    (∀ sid, session_upload_dir base sid = base ++ ["uploads"] ++ sid ∧
      session_conversion_dir base sid = base ++ ["conversions"] ++ sid) ∧
    (∀ dirs name, sanitize_filename (dirs ++ [name]) = name) ∧
    ∃ sid, ".." ∈ sid ∧
      ¬ underDir (UPLOAD_DIR base) (resolvePath (session_upload_dir base sid)) ∧
      ¬ underDir (CONVERSION_DIR base)
        (resolvePath (session_conversion_dir base sid)) := by
  refine ⟨fun sid => ⟨rfl, rfl⟩, ?_, ["..", "evil"], by simp, ?_, ?_⟩
  · intro dirs name
    simp [sanitize_filename]
  · have h1 : resolvePath (session_upload_dir base ["..", "evil"]) =
        base ++ ["evil"] := by
      unfold resolvePath at hb ⊢
      unfold session_upload_dir UPLOAD_DIR
      rw [List.append_assoc, List.foldl_append, hb]
      simp [List.dropLast_concat]
    rw [h1]
    rintro ⟨rest, hrest⟩
    unfold UPLOAD_DIR at hrest
    rw [List.append_assoc] at hrest
    have := List.append_cancel_left hrest
    simp at this
  · have h1 : resolvePath (session_conversion_dir base ["..", "evil"]) =
        base ++ ["evil"] := by
      unfold resolvePath at hb ⊢
      unfold session_conversion_dir CONVERSION_DIR
      rw [List.append_assoc, List.foldl_append, hb]
      simp [List.dropLast_concat]
    rw [h1]
    rintro ⟨rest, hrest⟩
    unfold CONVERSION_DIR at hrest
    rw [List.append_assoc] at hrest
    have := List.append_cancel_left hrest
    simp at this

/-- Witness for C10 at the concrete (resolved) base `["srv"]`. -/
theorem session_dirs_unsanitized_witness :
    (∀ sid, session_upload_dir ["srv"] sid = ["srv"] ++ ["uploads"] ++ sid ∧
      session_conversion_dir ["srv"] sid = ["srv"] ++ ["conversions"] ++ sid) ∧
    (∀ dirs name, sanitize_filename (dirs ++ [name]) = name) ∧
    ∃ sid, ".." ∈ sid ∧
      ¬ underDir (UPLOAD_DIR ["srv"])
        (resolvePath (session_upload_dir ["srv"] sid)) ∧
      ¬ underDir (CONVERSION_DIR ["srv"])
        (resolvePath (session_conversion_dir ["srv"] sid)) :=
  session_dirs_unsanitized ["srv"] rfl
